import Mathlib

/-!
Shallow embedding of the account synchronization engine in src/account.go
(package main of the wallet repository).  Pure data is modelled directly;
stateful code is explicit state passing over a world state `WState`;
external collaborators (btcd connection, btcutil/btcwire codecs, the
persistence layer, the embedded wallet) are an explicit environment `Env`.
Machine integers (int32 heights, uint64/int64 amounts) are modelled as
Int/Nat: block heights and coin amounts in this data model stay far below
the 32/64-bit overflow boundaries, so wrap-around is not modelled.
Logging calls (log.Errorf etc.) have no semantic effect and are elided.
-/

/-- Errors returned by operations or collaborators (Go error values).
External collaborator errors are opaque and carried by a numeric tag. -/
inductive GoErr
  | notFound
  | wrongNetwork
  | importFailedCannotWrite (inner : GoErr)
  | external (code : Nat)
deriving DecidableEq, Repr

/-- wallet.BlockStamp: the currently-known best block (height, hash).
Hashes (btcwire.ShaHash) are modelled as strings. -/
structure BlockStamp where
  height : Int
  hash : String
deriving DecidableEq, Repr

/-- btcwire.OutPoint: transaction id plus output index. -/
structure OutPoint where
  hash : String
  index : Nat
deriving DecidableEq, Repr

/-- tx.Utxo: an unspent output record (fields from account.go usage:
Amt, Height, Out.Hash, Out.Index, AddrHash, BlockHash, Subscript). -/
structure Utxo where
  amt : Nat
  height : Int
  outHash : String
  outIndex : Nat
  addrHash : String
  blockHash : String
  subscript : List Nat
deriving DecidableEq, Repr

/-- tx.RecvTx: a received-transaction history record. -/
structure RecvTx where
  txID : String
  txOutIdx : Nat
  timeReceived : Int
  blockHeight : Int
  blockHash : String
  blockIndex : Int
  blockTime : Int
  amount : Int
  receiverHash : String
deriving DecidableEq, Repr

/-- tx.SendTx: sent-transaction record.  Its fields live in the external
tx package; only the transaction id is needed by the embedded operations. -/
structure SendTx where
  txID : String
deriving DecidableEq, Repr

/-- A TxStore entry: polymorphic over RecvTx/SendTx. -/
inductive TxRecord
  | recvR (r : RecvTx)
  | sendR (s : SendTx)
deriving DecidableEq, Repr

/-- A btcjson.Error received alongside a notification result. -/
structure BtcjsonErr where
  code : Int
  message : String
deriving DecidableEq, Repr

/-- A dynamically-typed field value of a notification payload
(Go interface value inside a map[string]interface).  Numeric protocol
fields are integral; the float64 carrier is modelled as Int. -/
inductive JVal
  | str (s : String)
  | num (n : Int)
  | boolean (b : Bool)
deriving DecidableEq, Repr

/-- A notification result as delivered to a reply handler: Go nil, a
JSON-object map, or some other (unexpected) value. -/
inductive RResult
  | null
  | jmap (fields : List (String × JVal))
  | other
deriving DecidableEq, Repr

/-- Map lookup in a notification payload (first binding wins). -/
def jlookup (v : List (String × JVal)) (k : String) : Option JVal :=
  match v with
  | [] => none
  | (k', x) :: rest => if k' = k then some x else jlookup rest k

/-- Field access with string type assertion: v[k].(string). -/
def jstr (v : List (String × JVal)) (k : String) : Option String :=
  match jlookup v k with
  | some (JVal.str s) => some s
  | _ => none

/-- Field access with numeric type assertion: v[k].(float64). -/
def jnum (v : List (String × JVal)) (k : String) : Option Int :=
  match jlookup v k with
  | some (JVal.num n) => some n
  | _ => none

/-- Field access with boolean type assertion: v[k].(bool). -/
def jbool (v : List (String × JVal)) (k : String) : Option Bool :=
  match jlookup v k with
  | some (JVal.boolean b) => some b
  | _ => none

/-- Observable events emitted by the embedded operations: upstream
frontend notifications, persistence attempts, and btcd requests. -/
inductive WEvent
  | notifyWalletBalance (account : String) (amount : ℚ)
  | notifyWalletBalanceUnconfirmed (account : String) (amount : ℚ)
  | notifyNewTxDetails (account : String) (t : RecvTx)
  | notifyMinedTx (t : RecvTx)
  | notifyWalletLockStateChange (account : String) (locked : Bool)
  | writeDirty
  | reqNewTxsForAddress (addr : String)
deriving DecidableEq, Repr

/-- World state: the Account's own fields and stores plus the
process-wide shared registries it touches (address-ownership index,
send/receive ordering registry, notified-outpoint set). -/
structure WState where
  name : String
  net : Int
  dirty : Bool
  syncedWith : Option BlockStamp
  utxoStore : List Utxo
  utxoDirty : Bool
  txStore : List TxRecord
  txDirty : Bool
  addressAccountMap : List (String × String)
  sendTxHistSync : List String
  notifiedRecvTx : List OutPoint
deriving DecidableEq, Repr

/-- Environment: outcomes of the external collaborators consumed by
account.go (chain-tip query, btcutil/btcwire codecs, clock, embedded
wallet operations, persistence).  Each run of an operation reads the
collaborators through this record. -/
structure Env where
  getCurBlock : Except GoErr BlockStamp
  decodeAddress : String → Except GoErr String
  newShaHashFromStr : String → Except GoErr String
  base58Decode : String → List Nat
  timeNow : Int
  decodePrivateKey : String → Except GoErr (Nat × Int × Bool)
  importPrivateKey : Nat → Bool → BlockStamp → Except GoErr String
  nextChainedAddress : BlockStamp → Except GoErr String
  writeDirtyToDisk : Option GoErr

/-- btcutil.BlockHeightUnknown. -/
def blockHeightUnknown : Int := -1

/-- btcutil.SatoshiPerBitcoin. -/
def satoshiPerBitcoin : Nat := 100000000

/-- The confirmation test applied to each Utxo inside CalculateBalance and
CalculateAddressBalance (account.go lines 179 and 208):
confirms == 0 or (u.Height != -1 and bs.Height-u.Height+1 >= confirms). -/
def includeUtxo (bs : BlockStamp) (confirms : Int) (u : Utxo) : Bool :=
  confirms == 0 || (u.height != -1 && decide (bs.height - u.height + 1 ≥ confirms))

/-- The satoshi accumulation loop of CalculateBalance: bal += u.Amt for
each store entry passing the confirmation test. -/
def balanceSat (bs : BlockStamp) (confirms : Int) (us : List Utxo) : Nat :=
  match us with
  | [] => 0
  | u :: rest =>
    (if includeUtxo bs confirms u then u.amt else 0) + balanceSat bs confirms rest

/-- The satoshi accumulation loop of CalculateAddressBalance: as balanceSat
but adding only entries whose AddrHash equals the requested pubkey hash. -/
def addrBalanceSat (bs : BlockStamp) (pubkeyHash : String) (confirms : Int)
    (us : List Utxo) : Nat :=
  match us with
  | [] => 0
  | u :: rest =>
    (if includeUtxo bs confirms u then
      (if pubkeyHash == u.addrHash then u.amt else 0) else 0)
      + addrBalanceSat bs pubkeyHash confirms rest

/-- Account.CalculateBalance (account.go 167-185): zero when the current
block is unavailable or its height is unknown, otherwise the qualifying
satoshi total divided by SatoshiPerBitcoin. -/
def calculateBalance (env : Env) (st : WState) (confirms : Int) : ℚ :=
  match env.getCurBlock with
  | Except.error _ => 0
  | Except.ok bs =>
    if bs.height = blockHeightUnknown then 0
    else (balanceSat bs confirms st.utxoStore : ℚ) / (satoshiPerBitcoin : ℚ)

/-- Account.CalculateAddressBalance (account.go 196-216). -/
def calculateAddressBalance (env : Env) (st : WState) (pubkeyHash : String)
    (confirms : Int) : ℚ :=
  match env.getCurBlock with
  | Except.error _ => 0
  | Except.ok bs =>
    if bs.height = blockHeightUnknown then 0
    else (addrBalanceSat bs pubkeyHash confirms st.utxoStore : ℚ) / (satoshiPerBitcoin : ℚ)

/-- Go map assignment m[k] = v on the address-ownership index: replaces the
binding for k when present, otherwise adds it. -/
def mapInsert (m : List (String × String)) (k v : String) : List (String × String) :=
  match m with
  | [] => [(k, v)]
  | (k', v') :: rest => if k' = k then (k, v) :: rest else (k', v') :: mapInsert rest k v

/-- MarkAddressForAccount (account.go 48-52): records that address belongs
to the named account in the process-wide address-ownership index. -/
def markAddressForAccount (st : WState) (address account : String) : WState :=
  { st with addressAccountMap := mapInsert st.addressAccountMap address account }

/-- Association-list lookup used for the address-ownership index. -/
def jlookupStr (m : List (String × String)) (k : String) : Option String :=
  match m with
  | [] => none
  | (k', v) :: rest => if k' = k then some v else jlookupStr rest k

/-- LookupAccountByAddress (account.go 57-65). -/
def lookupAccountByAddress (st : WState) (address : String) : Except GoErr String :=
  match jlookupStr st.addressAccountMap address with
  | none => Except.error GoErr.notFound
  | some account => Except.ok account

/-- Modelled from the spec: tx.UtxoStore.Insert lives in the external tx
package (not under src/); per §4.1 it adds or replaces the entry for the
Utxo's outpoint with no duplicate-detection error, last write wins. -/
def utxoInsert (s : List Utxo) (u : Utxo) : List Utxo :=
  if s.any (fun x => x.outHash == u.outHash && x.outIndex == u.outIndex) then
    s.map (fun x =>
      if x.outHash == u.outHash && x.outIndex == u.outIndex then u else x)
  else s ++ [u]

/-- Account.spentUtxoHandler (account.go 673-702): validates the payload
(error check, map assertion, txhash string + parse, index number) and
returns false on every path; a missing index only logs and execution
continues.  The parsed txHash and index are discarded by the source
(the statement reading them is a blank-identifier assignment), so no
store is touched. -/
def spentUtxoHandler (env : Env) (st : WState) (result : RResult)
    (e : Option BtcjsonErr) : WState × List WEvent × Bool :=
  match e with
  | some _ => (st, [], false)
  | none =>
    match result with
    | RResult.null => (st, [], false)
    | RResult.other => (st, [], false)
    | RResult.jmap v =>
      match jstr v "txhash" with
      | none => (st, [], false)
      | some txHashBE =>
        match env.newShaHashFromStr txHashBE with
        | Except.error _ => (st, [], false)
        | Except.ok _txHash => (st, [], false)

/-- Account.newBlockTxOutHandler (account.go 706-885).  Field decoding
follows the source order; any missing/mistyped field or failed decode
drops the notification.  The per-block balance-notification gate and the
send/receive rendezvous wait are synchronization with goroutines outside
src/; sequentially the gate is a no-op and a completed wait removes the
registry entry for the transaction id, which is how they are modelled. -/
def newBlockTxOutHandler (env : Env) (st : WState) (result : RResult)
    (e : Option BtcjsonErr) : WState × List WEvent × Bool :=
  match e with
  | some _ => (st, [], false)
  | none =>
  match result with
  | RResult.null => (st, [], false)
  | RResult.other => (st, [], false)
  | RResult.jmap v =>
  match jstr v "receiver" with
  | none => (st, [], false)
  | some receiver =>
  match env.decodeAddress receiver with
  | Except.error _ => (st, [], false)
  | Except.ok receiverHash =>
  match jnum v "height" with
  | none => (st, [], false)
  | some height =>
  match jstr v "blockhash" with
  | none => (st, [], false)
  | some blockHashBE =>
  match env.newShaHashFromStr blockHashBE with
  | Except.error _ => (st, [], false)
  | Except.ok blockHash =>
  match jnum v "blockindex" with
  | none => (st, [], false)
  | some blockIndex =>
  match jnum v "blocktime" with
  | none => (st, [], false)
  | some blockTime =>
  match jstr v "txid" with
  | none => (st, [], false)
  | some txhashBE =>
  match env.newShaHashFromStr txhashBE with
  | Except.error _ => (st, [], false)
  | Except.ok txID =>
  match jnum v "txoutindex" with
  | none => (st, [], false)
  | some ftxOutIndex =>
  let txOutIndex := ftxOutIndex.toNat
  match jnum v "amount" with
  | none => (st, [], false)
  | some amt =>
  match jstr v "pkscript" with
  | none => (st, [], false)
  | some pkscript58 =>
  let pkscript := env.base58Decode pkscript58
  let spent := match jbool v "spent" with
    | some tspent => tspent
    | none => false
  let t : RecvTx :=
    { txID := txID, txOutIdx := txOutIndex, timeReceived := env.timeNow,
      blockHeight := height, blockHash := blockHash, blockIndex := blockIndex,
      blockTime := blockTime, amount := amt, receiverHash := receiverHash }
  let st1 :=
    if st.sendTxHistSync.contains txID then
      { st with sendTxHistSync := st.sendTxHistSync.filter (fun x => !(x == txID)) }
    else st
  let st2 := { st1 with txStore := st1.txStore ++ [TxRecord.recvR t], txDirty := true }
  let recvTxOP : OutPoint := { hash := txID, index := txOutIndex }
  let notifiedPair :=
    if st2.notifiedRecvTx.contains recvTxOP then
      ({ st2 with notifiedRecvTx := st2.notifiedRecvTx.filter (fun x => !(x == recvTxOP)) },
       [WEvent.notifyMinedTx t])
    else
      ({ st2 with notifiedRecvTx := st2.notifiedRecvTx ++ [recvTxOP] },
       [WEvent.notifyNewTxDetails st2.name t])
  let st3 := notifiedPair.1
  let evs1 := notifiedPair.2
  if spent then (st3, evs1, false)
  else
    let u : Utxo :=
      { amt := amt.toNat, height := height, outHash := txID, outIndex := txOutIndex,
        addrHash := receiverHash, blockHash := blockHash, subscript := pkscript }
    let st4 := { st3 with utxoStore := utxoInsert st3.utxoStore u, utxoDirty := true }
    if height = -1 then
      let bal := calculateBalance env st4 0 - calculateBalance env st4 1
      (st4, evs1 ++ [WEvent.notifyWalletBalanceUnconfirmed st4.name bal], false)
    else (st4, evs1, false)

/-- The reply handler registered by Account.RescanAddresses (account.go
534-561): every result is first fed to newBlockTxOutHandler; a non-nil
result then recomputes balances, notifies both to the frontends, and
returns false; a nil result updates the synced-with block stamp (when the
current block is available), marks the account dirty, persists, and
returns true. -/
def rescanReplyHandler (env : Env) (st : WState) (result : RResult)
    (e : Option BtcjsonErr) : WState × List WEvent × Bool :=
  let p := newBlockTxOutHandler env st result e
  let st1 := p.1
  let evs1 := p.2.1
  match result with
  | RResult.null =>
    match env.getCurBlock with
    | Except.ok bs =>
      let st2 := { st1 with syncedWith := some bs, dirty := true }
      (st2, evs1 ++ [WEvent.writeDirty], true)
    | Except.error _ => (st1, evs1, true)
  | _ =>
    let confirmed := calculateBalance env st1 1
    let unconfirmed := calculateBalance env st1 0 - confirmed
    (st1, evs1 ++ [WEvent.notifyWalletBalance st1.name confirmed,
      WEvent.notifyWalletBalanceUnconfirmed st1.name unconfirmed], false)

/-- Account.ImportWIFPrivateKey (account.go 413-450): decode the WIF key,
reject a network mismatch, import into the wallet, mark dirty and write to
disk (a write failure is returned as an import-failed error), then mark
the address for the account. -/
def importWIFPrivateKey (env : Env) (st : WState) (wif : String)
    (bs : BlockStamp) : WState × List WEvent × Except GoErr String :=
  match env.decodePrivateKey wif with
  | Except.error err => (st, [], Except.error err)
  | Except.ok (privkey, net, compressed) =>
    if net ≠ st.net then (st, [], Except.error GoErr.wrongNetwork)
    else
      match env.importPrivateKey privkey compressed bs with
      | Except.error err => (st, [], Except.error err)
      | Except.ok addr =>
        let st1 := { st with dirty := true }
        match env.writeDirtyToDisk with
        | some err =>
          (st1, [WEvent.writeDirty],
           Except.error (GoErr.importFailedCannotWrite err))
        | none =>
          let st2 := markAddressForAccount st1 addr st1.name
          (st2, [WEvent.writeDirty], Except.ok addr)

/-- Account.NewAddress (account.go 600-629): get the current block, get the
next chained address, mark dirty and write to disk (a write failure is
only logged), mark the address for the account, request btcd updates for
it, and return the address with a nil error. -/
def newAddress (env : Env) (st : WState) : WState × List WEvent × Except GoErr String :=
  match env.getCurBlock with
  | Except.error err => (st, [], Except.error err)
  | Except.ok bs =>
    match env.nextChainedAddress bs with
    | Except.error err => (st, [], Except.error err)
    | Except.ok addr =>
      let st1 := { st with dirty := true }
      let st2 := markAddressForAccount st1 addr st1.name
      (st2, [WEvent.writeDirty, WEvent.reqNewTxsForAddress addr], Except.ok addr)

/-- Account.Unlock (account.go 104-113) over a wallet-unlock oracle w
giving the result of the k-th wallet.Wallet.Unlock invocation: the first
component records the passphrase of each invocation in order, the second
the emitted notifications, the third the returned error.  The source
unlocks once, notifies on success, then returns the result of a second
unlock with the same passphrase. -/
def accountUnlock (w : Nat → Option GoErr) (name : String) (passphrase : String) :
    List String × List WEvent × Option GoErr :=
  let err := w 0
  let evs := match err with
    | none => [WEvent.notifyWalletLockStateChange name false]
    | some _ => []
  ([passphrase, passphrase], evs, w 1)

/-- Modelled from the spec: the NotificationRouter's registry update (§4.4,
the router itself is not under src/): the handler returns keepRegistered;
returning false removes the entry, returning true keeps it registered. -/
def routerAfterReturn (registered : List Nat) (id : Nat) (keepRegistered : Bool) :
    List Nat :=
  if keepRegistered then registered else registered.filter (fun x => !(x == id))

/-- The spec's confirmation-inclusion rule, written from the spec text
(§4.3): include every Utxo when confirms is 0; for confirms at least 1
include a Utxo exactly when its height is not -1 and
chainTipHeight - utxoHeight + 1 is at least confirms. -/
def specIncluded (bs : BlockStamp) (confirms : Int) (u : Utxo) : Bool :=
  confirms == 0 ||
    (decide (1 ≤ confirms) && u.height != -1 &&
      decide (bs.height - u.height + 1 ≥ confirms))

/-- Total satoshi amount of a list of Utxo. -/
def sumAmt (us : List Utxo) : Nat :=
  match us with
  | [] => 0
  | u :: rest => u.amt + sumAmt rest

/-- A clean environment whose chain-tip query yields height 100. -/
def envTip100 : Env :=
  { getCurBlock := Except.ok { height := 100, hash := "tip" }
    decodeAddress := fun s => Except.ok s
    newShaHashFromStr := fun s => Except.ok s
    base58Decode := fun _ => []
    timeNow := 0
    decodePrivateKey := fun _ => Except.error (GoErr.external 0)
    importPrivateKey := fun _ _ _ => Except.error (GoErr.external 0)
    nextChainedAddress := fun _ => Except.ok "addr1"
    writeDirtyToDisk := none }

/-- An account state with empty stores and registries. -/
def baseState : WState :=
  { name := "acct", net := 1, dirty := false, syncedWith := none,
    utxoStore := [], utxoDirty := false, txStore := [], txDirty := false,
    addressAccountMap := [], sendTxHistSync := [], notifiedRecvTx := [] }

/-- Utxo A of the spec scenario: height 95, amount 5 (5*10^8 satoshi). -/
def utxoA : Utxo :=
  { amt := 500000000, height := 95, outHash := "a0", outIndex := 0,
    addrHash := "ha", blockHash := "b95", subscript := [] }

/-- Utxo B of the spec scenario: unconfirmed (height -1), amount 3. -/
def utxoB : Utxo :=
  { amt := 300000000, height := -1, outHash := "b0", outIndex := 0,
    addrHash := "hb", blockHash := "", subscript := [] }

/-- A state holding exactly Utxo A and Utxo B. -/
def stateAB : WState := { baseState with utxoStore := [utxoA, utxoB] }

/-- Claim C6: with the chain tip at height 100 and the store holding exactly
Utxo A (height 95, amount 5) and Utxo B (height -1, amount 3), the balance
at 0 confirmations is 8, at 1 confirmation 5, and at 10 confirmations 0
(amounts in display units; the satoshi fields are 5*10^8 and 3*10^8). -/
theorem c6_balance_scenario :
    calculateBalance envTip100 stateAB 0 = 8 ∧
    calculateBalance envTip100 stateAB 1 = 5 ∧
    calculateBalance envTip100 stateAB 10 = 0 := by
  refine ⟨?_, ?_, ?_⟩ <;>
    · simp +decide only [calculateBalance, envTip100, stateAB, baseState, utxoA,
        utxoB, balanceSat, includeUtxo, blockHeightUnknown, satoshiPerBitcoin]
      norm_num

/-- A stored unspent output later named by a spent-output notification. -/
def utxoSpent : Utxo :=
  { amt := 700000000, height := 90, outHash := "aa", outIndex := 0,
    addrHash := "hs", blockHash := "b90", subscript := [] }

/-- A state whose UtxoStore holds exactly utxoSpent. -/
def stateSpent : WState := { baseState with utxoStore := [utxoSpent] }

/-- A well-formed spent-output notification naming utxoSpent's outpoint. -/
def spentNotif : RResult :=
  RResult.jmap [("txhash", JVal.str "aa"), ("index", JVal.num 0)]

/-- Claim C1 (code bug): after the spent-output handler processes a
well-formed notification naming the outpoint of the stored Utxo, the store
is unchanged and both balance computations still count the spent output's
amount (7 display units) at 0 and at 1 confirmations. -/
theorem c1_spent_output_still_counted :
    (spentUtxoHandler envTip100 stateSpent spentNotif none).1 = stateSpent ∧
    calculateBalance envTip100 (spentUtxoHandler envTip100 stateSpent spentNotif none).1 0 = 7 ∧
    calculateBalance envTip100 (spentUtxoHandler envTip100 stateSpent spentNotif none).1 1 = 7 ∧
    calculateAddressBalance envTip100
      (spentUtxoHandler envTip100 stateSpent spentNotif none).1 "hs" 1 = 7 := by
  refine ⟨rfl, ?_, ?_, ?_⟩
  · show calculateBalance envTip100 stateSpent 0 = 7
    simp +decide only [calculateBalance, envTip100, stateSpent, baseState,
      utxoSpent, balanceSat, includeUtxo, blockHeightUnknown, satoshiPerBitcoin]
    norm_num
  · show calculateBalance envTip100 stateSpent 1 = 7
    simp +decide only [calculateBalance, envTip100, stateSpent, baseState,
      utxoSpent, balanceSat, includeUtxo, blockHeightUnknown, satoshiPerBitcoin]
    norm_num
  · show calculateAddressBalance envTip100 stateSpent "hs" 1 = 7
    simp +decide only [calculateAddressBalance, envTip100, stateSpent, baseState,
      utxoSpent, addrBalanceSat, includeUtxo, blockHeightUnknown, satoshiPerBitcoin]
    norm_num

/-- Under a nonnegative confirmation count, the source's confirmation test
agrees with the spec's inclusion rule. -/
theorem includeUtxo_eq_specIncluded (bs : BlockStamp) (confirms : Int) (u : Utxo)
    (hc : 0 ≤ confirms) : includeUtxo bs confirms u = specIncluded bs confirms u := by
  rw [Bool.eq_iff_iff]
  simp only [includeUtxo, specIncluded, Bool.or_eq_true, Bool.and_eq_true,
    beq_iff_eq, bne_iff_ne, ne_eq, decide_eq_true_eq]
  omega

/-- The CalculateBalance loop equals the amount sum of the entries passing
the confirmation test. -/
theorem balanceSat_eq (bs : BlockStamp) (confirms : Int) (us : List Utxo) :
    balanceSat bs confirms us = sumAmt (us.filter (includeUtxo bs confirms)) := by
  induction us with
  | nil => rfl
  | cons u rest ih =>
    by_cases h : includeUtxo bs confirms u = true
    · simp [balanceSat, List.filter_cons, h, sumAmt, ih]
    · simp [balanceSat, List.filter_cons, h, ih]

/-- The CalculateAddressBalance loop equals the amount sum of the entries
passing the confirmation test and matching the pubkey hash. -/
theorem addrBalanceSat_eq (bs : BlockStamp) (pkHash : String) (confirms : Int)
    (us : List Utxo) :
    addrBalanceSat bs pkHash confirms us =
      sumAmt (us.filter (fun u => includeUtxo bs confirms u && pkHash == u.addrHash)) := by
  induction us with
  | nil => rfl
  | cons u rest ih =>
    by_cases h1 : includeUtxo bs confirms u = true
    · by_cases h2 : (pkHash == u.addrHash) = true
      · simp [addrBalanceSat, List.filter_cons, h1, h2, sumAmt, ih]
      · simp [addrBalanceSat, List.filter_cons, h1, h2, ih]
    · simp [addrBalanceSat, List.filter_cons, h1, ih]

/-- Claim C4: with a known chain tip, CalculateBalance counts a stored Utxo
exactly when confirms is 0, or confirms is at least 1 and the Utxo's height
is not -1 and tipHeight - height + 1 is at least confirms; and
CalculateAddressBalance additionally requires the Utxo's address hash to
equal the requested pubkey hash.  Stated as: each balance is the amount sum
of exactly the store entries selected by the spec rule, divided by the
fixed satoshi-per-display-unit divisor. -/
theorem c4_inclusion_rule (env : Env) (st : WState) (pkHash : String) (confirms : Int)
    (bs : BlockStamp) (hbs : env.getCurBlock = Except.ok bs)
    (hknown : bs.height ≠ blockHeightUnknown) (hc : 0 ≤ confirms) :
    calculateBalance env st confirms =
      (sumAmt (st.utxoStore.filter (specIncluded bs confirms)) : ℚ) /
        (satoshiPerBitcoin : ℚ) ∧
    calculateAddressBalance env st pkHash confirms =
      (sumAmt (st.utxoStore.filter
        (fun u => specIncluded bs confirms u && pkHash == u.addrHash)) : ℚ) /
        (satoshiPerBitcoin : ℚ) := by
  have hf : specIncluded bs confirms = includeUtxo bs confirms := by
    funext u
    exact (includeUtxo_eq_specIncluded bs confirms u hc).symm
  constructor
  · simp [calculateBalance, hbs, hknown, hf, balanceSat_eq]
  · simp [calculateAddressBalance, hbs, hknown, hf, addrBalanceSat_eq]

/-- Witness for c4_inclusion_rule at the concrete scenario state. -/
theorem c4_inclusion_rule_witness :
    calculateBalance envTip100 stateAB 1 =
      (sumAmt (stateAB.utxoStore.filter
        (specIncluded { height := 100, hash := "tip" } 1)) : ℚ) /
        (satoshiPerBitcoin : ℚ) ∧
    calculateAddressBalance envTip100 stateAB "ha" 1 =
      (sumAmt (stateAB.utxoStore.filter
        (fun u => specIncluded { height := 100, hash := "tip" } 1 u &&
          "ha" == u.addrHash)) : ℚ) / (satoshiPerBitcoin : ℚ) :=
  c4_inclusion_rule envTip100 stateAB "ha" 1 { height := 100, hash := "tip" }
    rfl (by decide) (by decide)

/-- Each entry contributes no more to the confirms-filtered total than to
the unfiltered (confirms 0) total. -/
theorem balanceSat_le_confirms_zero (bs : BlockStamp) (confirms : Int) (us : List Utxo) :
    balanceSat bs confirms us ≤ balanceSat bs 0 us := by
  induction us with
  | nil => exact Nat.le_refl 0
  | cons u rest ih =>
    have h0 : includeUtxo bs 0 u = true := by simp [includeUtxo]
    cases hb : includeUtxo bs confirms u <;> simp [balanceSat, h0, hb] <;> omega

/-- Claim C8: for every confirms at least 1, every store content, and every
chain-tip outcome, the confirms-restricted balance never exceeds the
unconfirmed-inclusive balance at confirms 0. -/
theorem c8_balance_monotone (env : Env) (st : WState) (confirms : Int)
    (hc : 1 ≤ confirms) :
    calculateBalance env st confirms ≤ calculateBalance env st 0 := by
  unfold calculateBalance
  cases env.getCurBlock with
  | error _ => exact le_refl 0
  | ok bs =>
    by_cases hh : bs.height = blockHeightUnknown
    · simp [hh]
    · simp only [hh, if_false]
      have hle : (balanceSat bs confirms st.utxoStore : ℚ) ≤
          (balanceSat bs 0 st.utxoStore : ℚ) := by
        exact_mod_cast balanceSat_le_confirms_zero bs confirms st.utxoStore
      have hpos : (0 : ℚ) < (satoshiPerBitcoin : ℚ) := by
        norm_num [satoshiPerBitcoin]
      exact div_le_div_of_nonneg_right hle hpos.le

/-- Witness for c8_balance_monotone at the concrete scenario state. -/
theorem c8_balance_monotone_witness :
    calculateBalance envTip100 stateAB 10 ≤ calculateBalance envTip100 stateAB 0 :=
  c8_balance_monotone envTip100 stateAB 10 (by decide)

/-- An environment whose persistence write fails. -/
def envWriteFails : Env := { envTip100 with writeDirtyToDisk := some (GoErr.external 5) }

/-- Claim C2 counterexample: with the dirty-state write failing, NewAddress
still hands the caller the new address with a nil error instead of
reporting the persistence failure. -/
theorem c2_counterexample :
    envWriteFails.writeDirtyToDisk = some (GoErr.external 5) ∧
    (newAddress envWriteFails baseState).2.2 = Except.ok "addr1" := by
  exact ⟨rfl, rfl⟩

/-- Claim C2 (amended): a persistence failure is propagated from
ImportWIFPrivateKey (as an import-failed error), while NewAddress only
logs it and still returns the freshly derived address with a nil error. -/
theorem c2_persistence_propagation (env : Env) (st : WState) (wif : String)
    (bsIn : BlockStamp) (k : Nat) (compressed : Bool) (addr addr2 : String)
    (bs : BlockStamp) (werr : GoErr)
    (hw : env.writeDirtyToDisk = some werr)
    (hdec : env.decodePrivateKey wif = Except.ok (k, st.net, compressed))
    (himp : env.importPrivateKey k compressed bsIn = Except.ok addr)
    (hcur : env.getCurBlock = Except.ok bs)
    (hnext : env.nextChainedAddress bs = Except.ok addr2) :
    (importWIFPrivateKey env st wif bsIn).2.2 =
      Except.error (GoErr.importFailedCannotWrite werr) ∧
    (newAddress env st).2.2 = Except.ok addr2 := by
  constructor
  · simp [importWIFPrivateKey, hdec, himp, hw]
  · simp [newAddress, hcur, hnext]

/-- An environment where WIF decoding and wallet import succeed but the
persistence write fails. -/
def envImportWriteFails : Env :=
  { envTip100 with
    decodePrivateKey := fun _ => Except.ok (11, 1, true)
    importPrivateKey := fun _ _ _ => Except.ok "imported1"
    writeDirtyToDisk := some (GoErr.external 5) }

/-- Witness for c2_persistence_propagation at a concrete environment. -/
theorem c2_persistence_propagation_witness :
    (importWIFPrivateKey envImportWriteFails baseState "wif" { height := 0, hash := "g" }).2.2 =
      Except.error (GoErr.importFailedCannotWrite (GoErr.external 5)) ∧
    (newAddress envImportWriteFails baseState).2.2 = Except.ok "addr1" :=
  c2_persistence_propagation envImportWriteFails baseState "wif"
    { height := 0, hash := "g" } 11 true "imported1" "addr1"
    { height := 100, hash := "tip" } (GoErr.external 5) rfl rfl rfl rfl rfl

/-- Claim C3 counterexample: when the rescan reply handler receives the
terminal nil result (chain tip available, clean state), the only event it
emits is the persistence write — no balance recomputation notification is
sent to upstream consumers there. -/
theorem c3_counterexample :
    (rescanReplyHandler envTip100 stateAB RResult.null none).2.1 = [WEvent.writeDirty] := by
  rfl

/-- Claim C3 (amended): with the current block available, the rescan reply
handler on the terminal nil result updates the account's synced-with tip
to the current tip, marks the account dirty, persists (its only emitted
event is the persistence write, so no balance notification), and returns
true, which per the code's convention removes the handler; the balance
recomputation and the two upstream balance notifications are emitted for
each non-terminal (map-shaped) result instead, where the handler returns
false. -/
theorem c3_rescan_reply_behavior (env : Env) (st : WState) (e : Option BtcjsonErr)
    (bs : BlockStamp) (hbs : env.getCurBlock = Except.ok bs)
    (v : List (String × JVal)) :
    ((rescanReplyHandler env st RResult.null e).1.syncedWith = some bs ∧
     (rescanReplyHandler env st RResult.null e).1.dirty = true ∧
     (rescanReplyHandler env st RResult.null e).2.1 = [WEvent.writeDirty] ∧
     (rescanReplyHandler env st RResult.null e).2.2 = true) ∧
    ((rescanReplyHandler env st (RResult.jmap v) e).2.1 =
       (newBlockTxOutHandler env st (RResult.jmap v) e).2.1 ++
       [WEvent.notifyWalletBalance (newBlockTxOutHandler env st (RResult.jmap v) e).1.name
          (calculateBalance env (newBlockTxOutHandler env st (RResult.jmap v) e).1 1),
        WEvent.notifyWalletBalanceUnconfirmed
          (newBlockTxOutHandler env st (RResult.jmap v) e).1.name
          (calculateBalance env (newBlockTxOutHandler env st (RResult.jmap v) e).1 0 -
            calculateBalance env (newBlockTxOutHandler env st (RResult.jmap v) e).1 1)] ∧
     (rescanReplyHandler env st (RResult.jmap v) e).2.2 = false) := by
  constructor
  · have hnull : newBlockTxOutHandler env st RResult.null e = (st, [], false) := by
      cases e <;> rfl
    refine ⟨?_, ?_, ?_, ?_⟩ <;> simp [rescanReplyHandler, hnull, hbs]
  · constructor
    · rfl
    · rfl

/-- Witness for c3_rescan_reply_behavior at a concrete environment. -/
theorem c3_rescan_reply_behavior_witness :
    ((rescanReplyHandler envTip100 baseState RResult.null none).1.syncedWith =
        some { height := 100, hash := "tip" } ∧
     (rescanReplyHandler envTip100 baseState RResult.null none).1.dirty = true ∧
     (rescanReplyHandler envTip100 baseState RResult.null none).2.1 = [WEvent.writeDirty] ∧
     (rescanReplyHandler envTip100 baseState RResult.null none).2.2 = true) ∧
    ((rescanReplyHandler envTip100 baseState (RResult.jmap []) none).2.1 =
       (newBlockTxOutHandler envTip100 baseState (RResult.jmap []) none).2.1 ++
       [WEvent.notifyWalletBalance
          (newBlockTxOutHandler envTip100 baseState (RResult.jmap []) none).1.name
          (calculateBalance envTip100
            (newBlockTxOutHandler envTip100 baseState (RResult.jmap []) none).1 1),
        WEvent.notifyWalletBalanceUnconfirmed
          (newBlockTxOutHandler envTip100 baseState (RResult.jmap []) none).1.name
          (calculateBalance envTip100
            (newBlockTxOutHandler envTip100 baseState (RResult.jmap []) none).1 0 -
            calculateBalance envTip100
              (newBlockTxOutHandler envTip100 baseState (RResult.jmap []) none).1 1)] ∧
     (rescanReplyHandler envTip100 baseState (RResult.jmap []) none).2.2 = false) :=
  c3_rescan_reply_behavior envTip100 baseState none { height := 100, hash := "tip" } rfl []

/-- A fully well-formed unconfirmed new-transaction notification payload. -/
def txNotif : RResult :=
  RResult.jmap
    [("receiver", JVal.str "recv1"), ("height", JVal.num (-1)),
     ("blockhash", JVal.str "bh"), ("blockindex", JVal.num 0),
     ("blocktime", JVal.num 5), ("txid", JVal.str "t1"),
     ("txoutindex", JVal.num 0), ("amount", JVal.num 200000000),
     ("pkscript", JVal.str "pk")]

/-- Claim C5 counterexample: feeding each standing handler's return value
for a well-formed notification into the spec-described router convention
(false removes the entry) removes the handler's registration — the value
returned is not the keep-registered one under that convention. -/
theorem c5_counterexample :
    routerAfterReturn [7] 7 (spentUtxoHandler envTip100 stateSpent spentNotif none).2.2 = [] ∧
    routerAfterReturn [9] 9 (newBlockTxOutHandler envTip100 baseState txNotif none).2.2 = [] := by
  exact ⟨rfl, rfl⟩

/-- Claim C5 (amended): for every input, including malformed and error
inputs, both standing handlers return false.  The code's own comments
(never remove this handler / returning true removes this handler) make
false the keep-registered value, the inverse of the convention stated in
the spec's router section. -/
theorem c5_handlers_return_false (env : Env) (st : WState) (result : RResult)
    (e : Option BtcjsonErr) :
    (newBlockTxOutHandler env st result e).2.2 = false ∧
    (spentUtxoHandler env st result e).2.2 = false := by
  constructor
  · unfold newBlockTxOutHandler
    repeat' first
      | rfl
      | split
      | dsimp only
  · unfold spentUtxoHandler
    repeat' split <;> try rfl

/-- An environment whose WIF decoder reports network 2 for every key. -/
def envWrongNet : Env :=
  { envTip100 with decodePrivateKey := fun _ => Except.ok (11, 2, true) }

/-- Claim C7: when the WIF key decodes to a network different from the
account's, ImportWIFPrivateKey returns the network-mismatch error and the
address-ownership index is unchanged. -/
theorem c7_network_mismatch (env : Env) (st : WState) (wif : String)
    (bs : BlockStamp) (k : Nat) (net : Int) (compressed : Bool)
    (hdec : env.decodePrivateKey wif = Except.ok (k, net, compressed))
    (hnet : net ≠ st.net) :
    (importWIFPrivateKey env st wif bs).2.2 = Except.error GoErr.wrongNetwork ∧
    (importWIFPrivateKey env st wif bs).1.addressAccountMap = st.addressAccountMap := by
  constructor <;> simp [importWIFPrivateKey, hdec, hnet]

/-- Witness for c7_network_mismatch at a concrete environment (account on
network 1, key decoding to network 2). -/
theorem c7_network_mismatch_witness :
    (importWIFPrivateKey envWrongNet baseState "wif" { height := 0, hash := "g" }).2.2 =
      Except.error GoErr.wrongNetwork ∧
    (importWIFPrivateKey envWrongNet baseState "wif"
      { height := 0, hash := "g" }).1.addressAccountMap = baseState.addressAccountMap :=
  c7_network_mismatch envWrongNet baseState "wif" { height := 0, hash := "g" }
    11 2 true rfl (by decide)

/-- Claim C10: Account.Unlock invokes the wallet unlock twice with the same
passphrase, emits the lock-state-changed notification exactly when the
first invocation succeeds, and returns the result of the second
invocation. -/
theorem c10_unlock_behavior (w : Nat → Option GoErr) (name passphrase : String) :
    (accountUnlock w name passphrase).1 = [passphrase, passphrase] ∧
    ((accountUnlock w name passphrase).2.1 =
        [WEvent.notifyWalletLockStateChange name false] ↔ w 0 = none) ∧
    (accountUnlock w name passphrase).2.2 = w 1 := by
  cases h : w 0 <;> simp [accountUnlock, h]
